import Mathlib

/-!
Shallow embedding of `src/site/app.js` from the
`pedestrian_microconnectivity_railcrossingsMTL` repository, together with
theorems settling the behavioural claims about it.

The program is a browser map viewer.  Its state lives in module-level
variables (`reachable400`, `reachable800`, `reachableLayer400`,
`reachableLayer800`) plus the Leaflet map layer stack, the info panel DOM
nodes, and the tab widget DOM nodes.  We embed that state as explicit
Lean structures and the event handlers as pure state-transition
functions.  JavaScript `undefined`/`null` is embedded as `Option`,
strict equality `===` on string-or-undefined values as equality on
`Option String`, and the JS falsy-or idiom `x || fallback` on strings as
`jsOr`.  Leaflet layer objects have reference identity; we model that by
giving every created overlay a fresh numeric id drawn from a counter in
the state.
-/

/-- JS idiom `x || fallback` for a string-or-undefined value `x`
(`app.js` lines 134-135): both `undefined` and the empty string are
falsy, so they select the fallback. -/
def jsOr (v : Option String) (fallback : String) : String :=
  match v with
  | none => fallback
  | some s => if s = "" then fallback else s

/-- A reachable-lines feature: the attribute `crossing_name` used by the
click-handler filter (`app.js` line 150/154), plus an abstract payload
standing for the geometry and the remaining properties.  `crossing_name`
is `Option String` because in JS the property may be absent
(`undefined`). -/
structure RFeature where
  crossing_name : Option String
  payload : Nat
deriving DecidableEq, Repr

/-- A GeoJSON feature collection as the program consumes it: the
`features` array plus the remaining top-level fields (`type`, etc.),
which the click handler copies verbatim with an object spread
(`app.js` lines 148-155). -/
structure FeatureCollection where
  features : List RFeature
  ftype : String
deriving DecidableEq, Repr

/-- The per-band filter in the click handler (`app.js` lines 148-155):
`{ ...collection, features: collection.features.filter(f =>
f.properties.crossing_name === name) }`.   `name` is the clicked
feature's `properties.name`, possibly `undefined`, and `===` on
string-or-undefined values is equality on `Option String`. -/
def filterByCrossing (c : FeatureCollection) (name : Option String) : FeatureCollection :=
  { c with features := c.features.filter (fun f => f.crossing_name == name) }

/-- The category switch of the style resolver (`app.js` lines 50-60 and
its verbatim duplicate at lines 114-118).  A JS `switch` on a string is
a chain of strict-equality tests; no `default` branch exists, so an
unrecognized category leaves `color` as `undefined` (`none`). -/
def categoryColor (category : String) : Option String :=
  if category = "Under_Construction" then some "#f7f793"
  else if category = "Formal_Crossing" then some "#62b955ff"
  else if category = "Informal_Crossing" then some "#82ee71ff"
  else none

/-- The circle-marker options built by `pointToLayer`
(`app.js` lines 63-72 and 119-127).  The two opacity fields are the
exact JS literals `0.5` and `1.0`, embedded as rationals. -/
structure MarkerStyle where
  radius : Nat
  fillColor : Option String
  color : String
  weight : Nat
  opacity : ℚ
  fillOpacity : ℚ
  pane : String
deriving DecidableEq, Repr

/-- `pointToLayer` style resolution (`app.js` lines 44-73): resolve the
fill color from the category and package the fixed marker options. -/
def pointToLayerStyle (category : String) : MarkerStyle :=
  { radius := 10
    fillColor := categoryColor category
    color := "black"
    weight := 2
    opacity := (1 : ℚ) / 2
    fillOpacity := 1
    pane := "markerPane" }

/-- Outcome of one fetch-and-parse pipeline: what collection (if any)
reached the success callback, whether the pipeline itself logged the
error, and whether a failure escapes as an unhandled promise
rejection (no `.catch` handler in the chain). -/
structure LoadResult where
  collection : Option FeatureCollection
  errorLogged : Bool
  unhandledRejection : Bool
deriving DecidableEq, Repr

/-- Road-network load (`app.js` lines 19-35): `.then` publishes the
parsed collection; the chain ends in `.catch(err => console.error(...))`,
so a failure is logged and nothing is published. -/
def loadRoadNetwork (r : Except String FeatureCollection) : LoadResult :=
  match r with
  | Except.ok d => { collection := some d, errorLogged := false, unhandledRejection := false }
  | Except.error _ => { collection := none, errorLogged := true, unhandledRejection := false }

/-- Crossings load (`app.js` lines 39-84): same shape as the
road-network load, ending in `.catch(err => console.error(...))`. -/
def loadCrossings (r : Except String FeatureCollection) : LoadResult :=
  match r with
  | Except.ok d => { collection := some d, errorLogged := false, unhandledRejection := false }
  | Except.error _ => { collection := none, errorLogged := true, unhandledRejection := false }

/-- 400m reachable-lines load (`app.js` lines 92-97): `.then` assigns
`reachable400 = data`; there is NO `.catch` in this chain, so on
failure nothing in the program logs the error (the rejection is
unhandled) and `reachable400` stays `null`. -/
def loadReachable400 (r : Except String FeatureCollection) : LoadResult :=
  match r with
  | Except.ok d => { collection := some d, errorLogged := false, unhandledRejection := false }
  | Except.error _ => { collection := none, errorLogged := false, unhandledRejection := true }

/-- 800m reachable-lines load (`app.js` lines 100-105): identical shape
to the 400m load, also with no `.catch`. -/
def loadReachable800 (r : Except String FeatureCollection) : LoadResult :=
  match r with
  | Except.ok d => { collection := some d, errorLogged := false, unhandledRejection := false }
  | Except.error _ => { collection := none, errorLogged := false, unhandledRejection := true }

/-- Claim C1: filtering a loaded reachable-lines collection by a
crossing name returns exactly the features whose `crossing_name`
strictly equals that name (case-sensitive, exact, no trimming), in the
original relative order, for names matching zero, one or many features.
Stated as: the filtered feature list is a sublist of the source list
(order preservation), membership is exactly strict equality on
`crossing_name`, and each feature occurs exactly as often as in the
source when it matches and never when it does not. -/
theorem C1_filter_exact (c : FeatureCollection) (n : Option String) :
    ((filterByCrossing c n).features.Sublist c.features) ∧
    (∀ f : RFeature, f ∈ (filterByCrossing c n).features ↔
      (f ∈ c.features ∧ f.crossing_name = n)) ∧
    (∀ f : RFeature, (filterByCrossing c n).features.count f =
      if f.crossing_name = n then c.features.count f else 0) := by
  refine ⟨List.filter_sublist _, ?_, ?_⟩
  · intro f
    simp [filterByCrossing, List.mem_filter]
  · intro f
    by_cases h : f.crossing_name = n
    · rw [if_pos h]
      simp only [filterByCrossing]
      exact List.count_filter (by simp [h])
    · rw [if_neg h]
      simp only [filterByCrossing]
      refine List.count_eq_zero.mpr ?_
      intro hf
      have hmem := (List.mem_filter.mp hf).2
      simp only [beq_iff_eq] at hmem
      exact h hmem

/-- Counterexample to claim C3 as stated: a failing 400m
reachable-lines load does NOT log the error (its fetch chain has no
`.catch`, `app.js` lines 92-97), though the collection is indeed left
unset. -/
theorem C3_counterexample :
    (loadReachable400 (Except.error "network failure")).errorLogged = false ∧
    (loadReachable400 (Except.error "network failure")).collection = none :=
  ⟨rfl, rfl⟩

/-- Claim C3, amended: on a fetch/parse failure every load leaves its
collection unset and none retries or crashes (each pipeline is a single
total function of the fetch outcome), but only the road-network and
crossings chains log the error via `.catch`; the 400m and 800m chains
have no `.catch`, so the failure escapes as an unhandled rejection and
the program logs nothing. -/
theorem C3_load_failure_policy (e : String) :
    loadRoadNetwork (Except.error e) =
      { collection := none, errorLogged := true, unhandledRejection := false } ∧
    loadCrossings (Except.error e) =
      { collection := none, errorLogged := true, unhandledRejection := false } ∧
    loadReachable400 (Except.error e) =
      { collection := none, errorLogged := false, unhandledRejection := true } ∧
    loadReachable800 (Except.error e) =
      { collection := none, errorLogged := false, unhandledRejection := true } :=
  ⟨rfl, rfl, rfl, rfl⟩

/-- Counterexample to claim C7 as stated: for the unrecognized category
value `"Pedestrian_Bridge"` the resolver leaves the fill color unset
(`undefined`); it does not produce any fallback color (`app.js`
lines 50-60 have no `default` case). -/
theorem C7_counterexample :
    (pointToLayerStyle "Pedestrian_Bridge").fillColor = none ∧
    (pointToLayerStyle "Pedestrian_Bridge").fillColor.isSome = false :=
  ⟨rfl, rfl⟩

/-- Claim C7, amended: each recognized category resolves to exactly its
configured fill color, and every unrecognized category resolves to an
UNSET fill color (`undefined`), not to a fallback. -/
theorem C7_category_colors :
    (pointToLayerStyle "Under_Construction").fillColor = some "#f7f793" ∧
    (pointToLayerStyle "Formal_Crossing").fillColor = some "#62b955ff" ∧
    (pointToLayerStyle "Informal_Crossing").fillColor = some "#82ee71ff" ∧
    (∀ c : String, c ≠ "Under_Construction" → c ≠ "Formal_Crossing" →
      c ≠ "Informal_Crossing" → (pointToLayerStyle c).fillColor = none) := by
  refine ⟨rfl, rfl, rfl, ?_⟩
  intro c h1 h2 h3
  simp [pointToLayerStyle, categoryColor, h1, h2, h3]

/-- Witness for `C7_category_colors` at the concrete unrecognized
category `"Lookout_Point"`. -/
theorem C7_category_colors_witness :
    ("Lookout_Point" : String) ≠ "Under_Construction" ∧
    (pointToLayerStyle "Lookout_Point").fillColor = none :=
  ⟨by decide,
    C7_category_colors.2.2.2 "Lookout_Point" (by decide) (by decide) (by decide)⟩

/-- Distance band of a reachability overlay (400m or 800m). -/
inductive Band where
  | b400 : Band
  | b800 : Band
deriving DecidableEq, Repr

/-- A Leaflet layer created by `L.geoJSON(filtered).addTo(map)`
(`app.js` lines 158-173): the data it renders plus its fixed path
style.  `id` models JS object identity: each layer created at runtime
is a distinct object, and `map.removeLayer` removes exactly that
object. -/
structure Overlay where
  id : Nat
  band : Band
  color : String
  weight : Nat
  data : FeatureCollection
deriving DecidableEq, Repr

/-- The map viewport: either untouched since the last state, or fitted
to the bounds of a drawn layer by `map.fitBounds(layer.getBounds())`
(`app.js` lines 176-180).  `getBounds` is a pure function of the data
the layer renders, so fitting records that collection. -/
inductive Viewport where
  | initial : Viewport
  | fitted : FeatureCollection → Viewport
deriving DecidableEq, Repr

/-- The module-level mutable state of `app.js` that the click handler
reads and writes: the two loaded reachability collections
(lines 86-87), the references to the currently drawn per-band layers
(lines 88-89), the list of reachability overlays currently on the map
in the order they were added (later = rendered on top), the info-panel
DOM text sinks `info-name` and `info-desc`, the viewport, and a
fresh-id counter modelling allocation of new layer objects. -/
structure AppState where
  reachable400 : Option FeatureCollection
  reachable800 : Option FeatureCollection
  reachableLayer400 : Option Overlay
  reachableLayer800 : Option Overlay
  mapLayers : List Overlay
  infoName : String
  infoDesc : String
  viewport : Viewport
  nextId : Nat
deriving DecidableEq, Repr

/-- The unconditional panel update at the top of the click handler
(`app.js` lines 134-135): `info-name` gets the crossing name or
`"Unnamed crossing"`, `info-desc` gets the description or
`"No description available."`. -/
def panelUpdate (n d : Option String) (s : AppState) : AppState :=
  { s with
    infoName := jsOr n "Unnamed crossing"
    infoDesc := jsOr d "No description available." }

/-- `map.removeLayer(l)` restricted to the reachability overlays:
removes the layer object with that identity (`app.js` lines 144-145). -/
def removeById (ls : List Overlay) (i : Nat) : List Overlay :=
  ls.filter (fun o => o.id != i)

/-- The teardown step of the click handler (`app.js` lines 143-145):
`if (reachableLayer400) map.removeLayer(reachableLayer400);` then the
same for `reachableLayer800`. -/
def removePrevLayers (s : AppState) : List Overlay :=
  match s.reachableLayer400, s.reachableLayer800 with
  | some l4, some l8 => removeById (removeById s.mapLayers l4.id) l8.id
  | some l4, none => removeById s.mapLayers l4.id
  | none, some l8 => removeById s.mapLayers l8.id
  | none, none => s.mapLayers

/-- The drawing part of the click handler once both collections are
available (`app.js` lines 143-180): remove the previous per-band
layers, filter both collections by the clicked crossing name, add the
800m layer first (light pink, weight 3) and the 400m layer second
(darker, weight 4, hence on top), update the layer references, and fit
the viewport to the 800m bounds if that filtered set is non-empty,
else to the 400m bounds if non-empty, else leave the viewport alone. -/
def drawForCrossing (n : Option String) (r400 r800 : FeatureCollection)
    (s : AppState) : AppState :=
  { reachable400 := s.reachable400
    reachable800 := s.reachable800
    reachableLayer400 :=
      some ⟨s.nextId + 1, Band.b400, "#f05f5fff", 4, filterByCrossing r400 n⟩
    reachableLayer800 :=
      some ⟨s.nextId, Band.b800, "#ec9696ff", 3, filterByCrossing r800 n⟩
    mapLayers := removePrevLayers s ++
      [⟨s.nextId, Band.b800, "#ec9696ff", 3, filterByCrossing r800 n⟩,
       ⟨s.nextId + 1, Band.b400, "#f05f5fff", 4, filterByCrossing r400 n⟩]
    infoName := s.infoName
    infoDesc := s.infoDesc
    viewport :=
      if 0 < (filterByCrossing r800 n).features.length then
        Viewport.fitted (filterByCrossing r800 n)
      else if 0 < (filterByCrossing r400 n).features.length then
        Viewport.fitted (filterByCrossing r400 n)
      else s.viewport
    nextId := s.nextId + 2 }

/-- The whole click handler (`app.js` lines 133-183): update the panel
unconditionally, then `if (!reachable400 || !reachable800) return;`,
else tear down and redraw. -/
def clickHandler (n d : Option String) (s : AppState) : AppState :=
  match s.reachable400, s.reachable800 with
  | some r400, some r800 => drawForCrossing n r400 r800 (panelUpdate n d s)
  | _, _ => panelUpdate n d s

/-- The completion callbacks of the two reachability loads
(`app.js` lines 94-96 and 102-104) having fired: `reachable400 = data`
and `reachable800 = data`. -/
def completeLoads (r4 r8 : FeatureCollection) (s : AppState) : AppState :=
  { s with reachable400 := some r4, reachable800 := some r8 }

/-- Tracking invariant of the overlay state: every reachability overlay
currently on the map is the one referenced by `reachableLayer400` or by
`reachableLayer800`.  It holds at startup (no overlays) and the click
handler preserves it. -/
def StateInv (s : AppState) : Prop :=
  ∀ o ∈ s.mapLayers, s.reachableLayer400 = some o ∨ s.reachableLayer800 = some o

theorem mem_removeById (ls : List Overlay) (i : Nat) (o : Overlay) :
    o ∈ removeById ls i ↔ (o ∈ ls ∧ o.id ≠ i) := by
  simp [removeById, List.mem_filter]

theorem removePrevLayers_of_inv (s : AppState) (hinv : StateInv s) :
    removePrevLayers s = [] := by
  rcases h4 : s.reachableLayer400 with _ | l4 <;>
    rcases h8 : s.reachableLayer800 with _ | l8 <;>
      refine List.eq_nil_iff_forall_not_mem.mpr ?_ <;>
        intro o ho <;>
          simp only [removePrevLayers, h4, h8, mem_removeById] at ho
  · rcases hinv o ho with hc | hc <;> rw [h4] at * <;> rw [h8] at * <;> simp_all
  · rcases hinv o ho.1 with hc | hc
    · rw [h4] at hc; exact absurd hc (by simp)
    · rw [h8] at hc
      have : l8 = o := by injection hc
      exact ho.2 (by rw [this])
  · rcases hinv o ho.1 with hc | hc
    · rw [h4] at hc
      have : l4 = o := by injection hc
      exact ho.2 (by rw [this])
    · rw [h8] at hc; exact absurd hc (by simp)
  · rcases hinv o ho.1.1 with hc | hc
    · rw [h4] at hc
      have : l4 = o := by injection hc
      exact ho.1.2 (by rw [this])
    · rw [h8] at hc
      have : l8 = o := by injection hc
      exact ho.2 (by rw [this])

theorem clickHandler_both (n d : Option String) (s : AppState)
    (r4 r8 : FeatureCollection)
    (h4 : s.reachable400 = some r4) (h8 : s.reachable800 = some r8) :
    clickHandler n d s = drawForCrossing n r4 r8 (panelUpdate n d s) := by
  unfold clickHandler
  rw [h4, h8]

theorem clickHandler_missing (n d : Option String) (s : AppState)
    (h : s.reachable400 = none ∨ s.reachable800 = none) :
    clickHandler n d s = panelUpdate n d s := by
  unfold clickHandler
  rcases h with h | h <;>
    rcases h4 : s.reachable400 with _ | r4 <;>
      rcases h8 : s.reachable800 with _ | r8 <;>
        simp_all

theorem removePrevLayers_panelUpdate (n d : Option String) (s : AppState) :
    removePrevLayers (panelUpdate n d s) = removePrevLayers s := rfl

theorem clickHandler_spec (n d : Option String) (s : AppState)
    (r4 r8 : FeatureCollection)
    (h4 : s.reachable400 = some r4) (h8 : s.reachable800 = some r8)
    (hinv : StateInv s) :
    clickHandler n d s =
      { reachable400 := some r4
        reachable800 := some r8
        reachableLayer400 :=
          some ⟨s.nextId + 1, Band.b400, "#f05f5fff", 4, filterByCrossing r4 n⟩
        reachableLayer800 :=
          some ⟨s.nextId, Band.b800, "#ec9696ff", 3, filterByCrossing r8 n⟩
        mapLayers :=
          [⟨s.nextId, Band.b800, "#ec9696ff", 3, filterByCrossing r8 n⟩,
           ⟨s.nextId + 1, Band.b400, "#f05f5fff", 4, filterByCrossing r4 n⟩]
        infoName := jsOr n "Unnamed crossing"
        infoDesc := jsOr d "No description available."
        viewport :=
          if 0 < (filterByCrossing r8 n).features.length then
            Viewport.fitted (filterByCrossing r8 n)
          else if 0 < (filterByCrossing r4 n).features.length then
            Viewport.fitted (filterByCrossing r4 n)
          else s.viewport
        nextId := s.nextId + 2 } := by
  rw [clickHandler_both n d s r4 r8 h4 h8]
  show drawForCrossing n r4 r8 (panelUpdate n d s) = _
  unfold drawForCrossing
  rw [removePrevLayers_panelUpdate, removePrevLayers_of_inv s hinv]
  simp [panelUpdate, h4, h8]

/-- Sample reachable-line features for concrete evaluations. -/
def featA : RFeature := { crossing_name := some "Crossing A", payload := 1 }

def featB : RFeature := { crossing_name := some "Crossing B", payload := 2 }

/-- Sample 400m reachable-lines collection. -/
def sample400 : FeatureCollection :=
  { features := [featA, featB], ftype := "FeatureCollection" }

/-- Sample 800m reachable-lines collection. -/
def sample800 : FeatureCollection :=
  { features := [featA], ftype := "FeatureCollection" }

/-- A reachable-lines collection with no features. -/
def emptyFC : FeatureCollection :=
  { features := [], ftype := "FeatureCollection" }

/-- State right after both reachability loads completed, before any
click: no overlay drawn, no selection. -/
def initState : AppState :=
  { reachable400 := some sample400
    reachable800 := some sample800
    reachableLayer400 := none
    reachableLayer800 := none
    mapLayers := []
    infoName := ""
    infoDesc := ""
    viewport := Viewport.initial
    nextId := 0 }

/-- State before either reachability load completed. -/
def loadingState : AppState :=
  { initState with reachable400 := none, reachable800 := none }

/-- State where only the 400m collection has loaded. -/
def halfState : AppState :=
  { initState with reachable800 := none }

/-- State where both collections loaded but hold no features at all, so
every filter result is empty. -/
def emptyState : AppState :=
  { initState with reachable400 := some emptyFC, reachable800 := some emptyFC }

/-- Counterexample to claim C2 as stated: with both loaded collections
empty, a click leaves the viewport unchanged (that half holds) but NO
"no reachable lines found" notice is appended anywhere — the panel
description is exactly the clicked feature description, which does not
end with the notice.  The handler only ever writes the name/description
fallbacks to the panel (`app.js` lines 134-135) and has no code
emitting such a notice. -/
theorem C2_counterexample :
    (clickHandler (some "Crossing A") (some "south side entrance") emptyState).viewport
        = emptyState.viewport ∧
    (clickHandler (some "Crossing A") (some "south side entrance") emptyState).infoDesc
        = "south side entrance" ∧
    (("no reachable lines found").data.isSuffixOf
        ((clickHandler (some "Crossing A") (some "south side entrance") emptyState).infoDesc).data)
        = false := by
  refine ⟨rfl, rfl, by decide⟩

/-- Claim C2, amended: after a click with both reachability collections
loaded, the viewport is fitted to the bounds of the 800m layer if its
filtered set is non-empty, else to the 400m layer if its filtered set
is non-empty; if both filtered sets are empty the viewport is left
unchanged — and no notice is appended: the panel description is just
the clicked feature description (with its fallback), as the handler
writes nothing else to the panel. -/
theorem C2_fit_broadest_band (s : AppState) (r4 r8 : FeatureCollection)
    (n d : Option String)
    (h4 : s.reachable400 = some r4) (h8 : s.reachable800 = some r8) :
    ((filterByCrossing r8 n).features ≠ [] →
      (clickHandler n d s).viewport = Viewport.fitted (filterByCrossing r8 n)) ∧
    ((filterByCrossing r8 n).features = [] → (filterByCrossing r4 n).features ≠ [] →
      (clickHandler n d s).viewport = Viewport.fitted (filterByCrossing r4 n)) ∧
    ((filterByCrossing r8 n).features = [] → (filterByCrossing r4 n).features = [] →
      (clickHandler n d s).viewport = s.viewport ∧
      (clickHandler n d s).infoDesc = jsOr d "No description available.") := by
  rw [clickHandler_both n d s r4 r8 h4 h8]
  refine ⟨?_, ?_, ?_⟩
  · intro h8ne
    have hlen : 0 < (filterByCrossing r8 n).features.length :=
      List.length_pos.mpr h8ne
    simp [drawForCrossing, hlen]
  · intro h8e h4ne
    have hlen : 0 < (filterByCrossing r4 n).features.length :=
      List.length_pos.mpr h4ne
    simp [drawForCrossing, h8e, hlen]
  · intro h8e h4e
    refine ⟨?_, ?_⟩
    · simp [drawForCrossing, h8e, h4e, panelUpdate]
    · simp [drawForCrossing, panelUpdate]

/-- Witness for `C2_fit_broadest_band`: in the concrete state whose
collections hold no features, clicking leaves the viewport unchanged
and the panel description is exactly the clicked description. -/
theorem C2_fit_broadest_band_witness :
    (clickHandler (some "Crossing Z") (some "d") emptyState).viewport
        = emptyState.viewport ∧
    (clickHandler (some "Crossing Z") (some "d") emptyState).infoDesc
        = jsOr (some "d") "No description available." :=
  (C2_fit_broadest_band emptyState emptyFC emptyFC (some "Crossing Z") (some "d")
    rfl rfl).2.2 rfl rfl

/-- Claim C4: a click before the reachability loads completed updates
the info panel and aborts the rest of the transition: the resulting
state is exactly the panel update (so no overlay is drawn, previously
drawn overlays stay on the map, the layer references and viewport are
untouched, and the handler — a total function — cannot throw); and a
later click after the loads complete draws the correct overlays for
the clicked crossing. -/
theorem C4_click_before_load (s : AppState) (n d : Option String)
    (r4 r8 : FeatureCollection)
    (hmiss : s.reachable400 = none ∨ s.reachable800 = none) :
    (clickHandler n d s = panelUpdate n d s) ∧
    ((clickHandler n d s).mapLayers = s.mapLayers ∧
     (clickHandler n d s).reachableLayer400 = s.reachableLayer400 ∧
     (clickHandler n d s).reachableLayer800 = s.reachableLayer800 ∧
     (clickHandler n d s).viewport = s.viewport) ∧
    (∀ n2 d2 : Option String, ∃ o8 o4 : Overlay, ∃ pre : List Overlay,
      (clickHandler n2 d2 (completeLoads r4 r8 (clickHandler n d s))).reachableLayer800
          = some o8 ∧
      (clickHandler n2 d2 (completeLoads r4 r8 (clickHandler n d s))).reachableLayer400
          = some o4 ∧
      o8.data = filterByCrossing r8 n2 ∧
      o4.data = filterByCrossing r4 n2 ∧
      (clickHandler n2 d2 (completeLoads r4 r8 (clickHandler n d s))).mapLayers
          = pre ++ [o8, o4]) := by
  have habort := clickHandler_missing n d s hmiss
  refine ⟨habort, by rw [habort]; exact ⟨rfl, rfl, rfl, rfl⟩, ?_⟩
  intro n2 d2
  rw [clickHandler_both n2 d2 (completeLoads r4 r8 (clickHandler n d s)) r4 r8 rfl rfl]
  exact ⟨_, _, _, rfl, rfl, rfl, rfl, rfl⟩

/-- Witness for `C4_click_before_load`: clicking in the concrete state
where neither collection has loaded leaves everything but the panel
unchanged. -/
theorem C4_click_before_load_witness :
    loadingState.reachable400 = none ∧
    clickHandler (some "Crossing A") none loadingState
      = panelUpdate (some "Crossing A") none loadingState :=
  ⟨rfl, (C4_click_before_load loadingState (some "Crossing A") none sample400 sample800
    (Or.inl rfl)).1⟩

/-- Claim C10: if exactly one of the two reachability collections has
loaded when a crossing is clicked, the guard
`if (!reachable400 || !reachable800) return;` still aborts: no overlay
is drawn for either band — not even for the band whose data is already
present — and layer references and viewport are untouched. -/
theorem C10_single_collection_aborts (s : AppState) (n d : Option String)
    (r : FeatureCollection)
    (h : (s.reachable400 = some r ∧ s.reachable800 = none) ∨
         (s.reachable400 = none ∧ s.reachable800 = some r)) :
    (clickHandler n d s).mapLayers = s.mapLayers ∧
    (clickHandler n d s).reachableLayer400 = s.reachableLayer400 ∧
    (clickHandler n d s).reachableLayer800 = s.reachableLayer800 ∧
    (clickHandler n d s).viewport = s.viewport := by
  have habort : clickHandler n d s = panelUpdate n d s := by
    rcases h with ⟨_, h8⟩ | ⟨h4, _⟩
    · exact clickHandler_missing n d s (Or.inr h8)
    · exact clickHandler_missing n d s (Or.inl h4)
  rw [habort]
  exact ⟨rfl, rfl, rfl, rfl⟩

/-- Witness for `C10_single_collection_aborts`: in the concrete state
where only the 400m collection has loaded, a click draws nothing. -/
theorem C10_single_collection_aborts_witness :
    halfState.reachable400 = some sample400 ∧
    (clickHandler (some "Crossing A") none halfState).mapLayers = halfState.mapLayers :=
  ⟨rfl, (C10_single_collection_aborts halfState (some "Crossing A") none sample400
    (Or.inl ⟨rfl, rfl⟩)).1⟩

/-- Claim C5: the active overlay set holds at most one overlay per band.
Starting from any state whose drawn overlays are exactly the tracked
ones, clicking crossing A and then crossing B leaves exactly the two
overlays created for B on the map — one 800m and one 400m layer
carrying the sets filtered by the name of B — and none of the overlays
present after the A click survive. -/
theorem C5_overlay_exclusivity (s : AppState) (r4 r8 : FeatureCollection)
    (nA dA nB dB : Option String)
    (h4 : s.reachable400 = some r4) (h8 : s.reachable800 = some r8)
    (hinv : StateInv s) :
    ((clickHandler nB dB (clickHandler nA dA s)).mapLayers.map
        (fun o => (o.band, o.data)) =
      [(Band.b800, filterByCrossing r8 nB),
       (Band.b400, filterByCrossing r4 nB)]) ∧
    (∀ o ∈ (clickHandler nB dB (clickHandler nA dA s)).mapLayers,
      o ∉ (clickHandler nA dA s).mapLayers) := by
  have h1 := clickHandler_spec nA dA s r4 r8 h4 h8 hinv
  have h14 : (clickHandler nA dA s).reachable400 = some r4 := by rw [h1]
  have h18 : (clickHandler nA dA s).reachable800 = some r8 := by rw [h1]
  have hinv1 : StateInv (clickHandler nA dA s) := by
    rw [h1]
    intro o ho
    simp only [List.mem_cons, List.not_mem_nil, or_false] at ho
    rcases ho with rfl | rfl
    · right; rfl
    · left; rfl
  have h2 := clickHandler_spec nB dB (clickHandler nA dA s) r4 r8 h14 h18 hinv1
  constructor
  · rw [h2]
    rfl
  · intro o ho
    rw [h2] at ho
    rw [h1] at ho ⊢
    simp only [List.mem_cons, List.not_mem_nil, or_false] at ho
    simp only [List.mem_cons, List.not_mem_nil, or_false, not_or]
    rcases ho with rfl | rfl
    · refine ⟨fun hcon => ?_, fun hcon => ?_⟩
      · have hid : s.nextId + 2 = s.nextId := congrArg Overlay.id hcon
        omega
      · have hid : s.nextId + 2 = s.nextId + 1 := congrArg Overlay.id hcon
        omega
    · refine ⟨fun hcon => ?_, fun hcon => ?_⟩
      · have hid : s.nextId + 2 + 1 = s.nextId := congrArg Overlay.id hcon
        omega
      · have hid : s.nextId + 2 + 1 = s.nextId + 1 := congrArg Overlay.id hcon
        omega

/-- Witness for `C5_overlay_exclusivity`: in the concrete start state,
after clicking crossing A and then crossing B, the map holds exactly
one 800m and one 400m overlay, both filtered by the name of B. -/
theorem C5_overlay_exclusivity_witness :
    ((clickHandler (some "Crossing B") none
        (clickHandler (some "Crossing A") none initState)).mapLayers.map
      (fun o => (o.band, o.data)) =
      [(Band.b800, filterByCrossing sample800 (some "Crossing B")),
       (Band.b400, filterByCrossing sample400 (some "Crossing B"))]) :=
  (C5_overlay_exclusivity initState sample400 sample800 (some "Crossing A") none
    (some "Crossing B") none rfl rfl (by intro o ho; simp [initState] at ho)).1

/-- Claim C6: when a click draws the bands, the 800m (far) layer is
added to the map before the 400m (near) layer, so the map layer list —
ordered by addition, later entries rendering on top — ends with the
800m overlay followed by the 400m overlay: the near band is topmost. -/
theorem C6_draw_order (s : AppState) (r4 r8 : FeatureCollection)
    (n d : Option String)
    (h4 : s.reachable400 = some r4) (h8 : s.reachable800 = some r8) :
    ∃ o8 o4 : Overlay, ∃ pre : List Overlay,
      (clickHandler n d s).reachableLayer800 = some o8 ∧
      (clickHandler n d s).reachableLayer400 = some o4 ∧
      o8.band = Band.b800 ∧ o4.band = Band.b400 ∧
      o8.data = filterByCrossing r8 n ∧ o4.data = filterByCrossing r4 n ∧
      (clickHandler n d s).mapLayers = pre ++ [o8, o4] := by
  rw [clickHandler_both n d s r4 r8 h4 h8]
  exact ⟨_, _, _, rfl, rfl, rfl, rfl, rfl, rfl, rfl⟩

/-- Witness for `C6_draw_order` at the concrete start state. -/
theorem C6_draw_order_witness :
    ∃ o8 o4 : Overlay, ∃ pre : List Overlay,
      (clickHandler (some "Crossing A") none initState).reachableLayer800 = some o8 ∧
      (clickHandler (some "Crossing A") none initState).reachableLayer400 = some o4 ∧
      o8.band = Band.b800 ∧ o4.band = Band.b400 ∧
      o8.data = filterByCrossing sample800 (some "Crossing A") ∧
      o4.data = filterByCrossing sample400 (some "Crossing A") ∧
      (clickHandler (some "Crossing A") none initState).mapLayers = pre ++ [o8, o4] :=
  C6_draw_order initState sample400 sample800 (some "Crossing A") none rfl rfl

/-- Claim C8: the loaded reachable-lines collections are never mutated
by a click.  The per-band filtering builds fresh collection values
(object spread plus `Array.prototype.filter`, which allocate), and the
handler never assigns to `reachable400`/`reachable800`, so after any
click both collections are exactly what they were before. -/
theorem C8_collections_not_mutated (s : AppState) (n d : Option String) :
    (clickHandler n d s).reachable400 = s.reachable400 ∧
    (clickHandler n d s).reachable800 = s.reachable800 := by
  rcases h4 : s.reachable400 with _ | r4 <;> rcases h8 : s.reachable800 with _ | r8
  · rw [clickHandler_missing n d s (Or.inl h4)]
    exact ⟨h4, h8⟩
  · rw [clickHandler_missing n d s (Or.inl h4)]
    exact ⟨h4, h8⟩
  · rw [clickHandler_missing n d s (Or.inr h8)]
    exact ⟨h4, h8⟩
  · rw [clickHandler_both n d s r4 r8 h4 h8]
    exact ⟨h4, h8⟩

/-- A DOM element of class `tab-page`: its id attribute and its
`style.display` value. -/
structure PageEl where
  id : String
  display : String
deriving DecidableEq, Repr

/-- A DOM element of class `tab-link`: its label and whether its class
list contains `"active"`. -/
structure TabEl where
  label : String
  active : Bool
deriving DecidableEq, Repr

/-- The DOM surface the tab widget manipulates: the `tab-page` elements
and the `tab-link` elements, in document order. -/
structure TabDom where
  pages : List PageEl
  tabs : List TabEl
deriving DecidableEq, Repr

/-- `pages[i].style.display = "none"` over all `tab-page` elements
(`app.js` lines 192-195). -/
def hideAllPages (ps : List PageEl) : List PageEl :=
  ps.map (fun p => { p with display := "none" })

/-- `tabs[i].classList.remove("active")` over all `tab-link` elements
(`app.js` lines 197-200). -/
def deactivateAllTabs (ts : List TabEl) : List TabEl :=
  ts.map (fun t => { t with active := false })

/-- `document.getElementById(tabId).style.display = "block"`
(`app.js` line 202): sets the first element carrying that id —
document ids are unique, so the first is the only one. -/
def setDisplayBlockById : List PageEl → String → List PageEl
  | [], _ => []
  | p :: ps, i =>
    if p.id = i then { p with display := "block" } :: ps
    else p :: setDisplayBlockById ps i

/-- `evt.currentTarget.classList.add("active")` (`app.js` line 203):
the triggering control is the element at position `k` among the
`tab-link` elements. -/
def addActiveAt : List TabEl → Nat → List TabEl
  | [], _ => []
  | t :: ts, 0 => { t with active := true } :: ts
  | t :: ts, Nat.succ k => t :: addActiveAt ts k

/-- `window.openTab(evt, tabId)` (`app.js` lines 191-204): hide every
tab page, clear every active mark, then show the target page and mark
the triggering control active. -/
def openTab (d : TabDom) (k : Nat) (tabId : String) : TabDom :=
  { pages := setDisplayBlockById (hideAllPages d.pages) tabId
    tabs := addActiveAt (deactivateAllTabs d.tabs) k }

theorem setDisplayBlock_hideAll_spec (ps : List PageEl) (i : String)
    (hmem : i ∈ ps.map PageEl.id) (hnodup : (ps.map PageEl.id).Nodup) :
    ∀ p ∈ setDisplayBlockById (hideAllPages ps) i,
      p.display = if p.id = i then "block" else "none" := by
  induction ps with
  | nil => intro p hp; simp [hideAllPages, setDisplayBlockById] at hp
  | cons q qs ih =>
    rw [List.map_cons, List.nodup_cons] at hnodup
    rw [List.map_cons, List.mem_cons] at hmem
    intro p hp
    by_cases hq : q.id = i
    · rw [show hideAllPages (q :: qs)
          = { q with display := "none" } :: hideAllPages qs from rfl] at hp
      rw [show setDisplayBlockById ({ q with display := "none" } :: hideAllPages qs) i
          = { q with display := "block" } :: hideAllPages qs from by
            simp [setDisplayBlockById, hq]] at hp
      rcases List.mem_cons.mp hp with rfl | hp2
      · simp [hq]
      · obtain ⟨p0, hp0, rfl⟩ := List.mem_map.mp (by simpa [hideAllPages] using hp2)
        have hpne : p0.id ≠ i := by
          intro hcon
          refine hnodup.1 ?_
          rw [hq, ← hcon]
          exact List.mem_map_of_mem PageEl.id hp0
        simp [hpne]
    · rw [show hideAllPages (q :: qs)
          = { q with display := "none" } :: hideAllPages qs from rfl] at hp
      rw [show setDisplayBlockById ({ q with display := "none" } :: hideAllPages qs) i
          = { q with display := "none" } :: setDisplayBlockById (hideAllPages qs) i from by
            simp [setDisplayBlockById, hq]] at hp
      rcases List.mem_cons.mp hp with rfl | hp2
      · simp [hq]
      · have hmem2 : i ∈ qs.map PageEl.id := by
          rcases hmem with hcon | h
          · exact absurd hcon.symm hq
          · exact h
        exact ih hmem2 hnodup.2 p hp2

theorem addActiveAt_length (ts : List TabEl) (k : Nat) :
    (addActiveAt ts k).length = ts.length := by
  induction ts generalizing k with
  | nil => rfl
  | cons t ts ih =>
    cases k with
    | zero => rfl
    | succ k => simp [addActiveAt, ih]

theorem addActive_deactivate_get (ts : List TabEl) (k : Nat) :
    ∀ i : Nat, ∀ hi : i < (addActiveAt (deactivateAllTabs ts) k).length,
      ((addActiveAt (deactivateAllTabs ts) k).get ⟨i, hi⟩).active = decide (i = k) := by
  induction ts generalizing k with
  | nil => intro i hi; simp [deactivateAllTabs, addActiveAt] at hi
  | cons t ts ih =>
    cases k with
    | zero =>
      intro i hi
      cases i with
      | zero => rfl
      | succ j =>
        have hj : j < (deactivateAllTabs ts).length := by
          simpa [deactivateAllTabs, addActiveAt] using hi
        have : ((deactivateAllTabs ts).get ⟨j, hj⟩).active = false := by
          simp [deactivateAllTabs, List.get_map]
        simpa using this
    | succ k =>
      intro i hi
      cases i with
      | zero => rfl
      | succ j =>
        have hj : j < (addActiveAt (deactivateAllTabs ts) k).length := by
          simpa [deactivateAllTabs, addActiveAt] using hi
        have := ih k j hj
        simpa using this

/-- Claim C9: for a target id `tabId` that belongs to the document-wide
unique id of some tab page, and a triggering control at position `k` in
the tab set, the tab switch leaves exactly the target page visible
(every other page display is `"none"`), keeps the number of controls,
and marks exactly the triggering control active. -/
theorem C9_tab_switch (d : TabDom) (k : Nat) (tabId : String)
    (hk : k < d.tabs.length)
    (hmem : tabId ∈ d.pages.map PageEl.id)
    (hnodup : (d.pages.map PageEl.id).Nodup) :
    (∀ p ∈ (openTab d k tabId).pages,
      p.display = if p.id = tabId then "block" else "none") ∧
    ((openTab d k tabId).tabs.length = d.tabs.length) ∧
    (∀ i : Nat, ∀ hi : i < (openTab d k tabId).tabs.length,
      (((openTab d k tabId).tabs.get ⟨i, hi⟩).active = true ↔ i = k)) := by
  refine ⟨?_, ?_, ?_⟩
  · exact setDisplayBlock_hideAll_spec d.pages tabId hmem hnodup
  · show (addActiveAt (deactivateAllTabs d.tabs) k).length = d.tabs.length
    rw [addActiveAt_length]
    simp [deactivateAllTabs]
  · intro i hi
    show ((addActiveAt (deactivateAllTabs d.tabs) k).get ⟨i, hi⟩).active = true ↔ i = k
    rw [addActive_deactivate_get d.tabs k i hi]
    simp

/-- A concrete two-tab document for evaluating the tab widget. -/
def tabDomSample : TabDom :=
  { pages := [{ id := "tab-about", display := "block" },
              { id := "tab-legend", display := "none" }]
    tabs := [{ label := "About", active := true },
             { label := "Legend", active := false }] }

/-- Witness for `C9_tab_switch` on a concrete two-tab document:
activating the second tab shows exactly its page and marks exactly the
second control active. -/
theorem C9_tab_switch_witness :
    (1 < tabDomSample.tabs.length) ∧
    (∀ p ∈ (openTab tabDomSample 1 "tab-legend").pages,
      p.display = if p.id = "tab-legend" then "block" else "none") ∧
    ((openTab tabDomSample 1 "tab-legend").tabs.length = tabDomSample.tabs.length) ∧
    (∀ i : Nat, ∀ hi : i < (openTab tabDomSample 1 "tab-legend").tabs.length,
      (((openTab tabDomSample 1 "tab-legend").tabs.get ⟨i, hi⟩).active = true ↔ i = 1)) :=
  ⟨by decide, C9_tab_switch tabDomSample 1 "tab-legend" (by decide) (by decide) (by decide)⟩
